import Mathlib

/-!
Verification of the client-side pagination, polling, notification and
error-handling logic of the shopify-operations-frontend repository.

Each definition is a shallow embedding of a function from the source:
React `useState` fields become record fields, event handlers and effect
bodies become state-transformer functions, and the browser timer table is
made explicit.  Machine integers are `Int`/`Nat`; fallible code returns
`Except`.
-/

namespace ShopifyOps

/-! ## Events page pagination (src/pages/Events.tsx)

State variables of the `Events` component that the pagination handlers
touch: `cursor`, `cursorHistory`, `startIndex`, `itemsPerPage`.
JavaScript `null` becomes `none`; the `x || ''` / `x || null` truthiness
coercions are embedded explicitly (the empty string is falsy). -/

structure PageInfo where
  hasNextPage : Bool
  endCursor : Option String
deriving Repr, DecidableEq

structure PageState where
  cursor : Option String
  cursorHistory : List String
  startIndex : Int
  itemsPerPage : Int
deriving Repr, DecidableEq

/-- JavaScript truthiness of a nullable string:
`null` and `''` are falsy. -/
def truthy : Option String → Bool
  | none => false
  | some c => !(c == "")

/-- `cursor || ''` : a `null` cursor is stored as `''` in the history
(an `''` cursor would also be stored as `''`, which is the same string). -/
def encodeCursor : Option String → String
  | none => ""
  | some c => c

/-- `newHistory.pop() || null` : a popped `''` entry is restored as `null`. -/
def decodeCursor (p : String) : Option String :=
  if p = "" then none else some p

/-- `handleNextPage` (Events.tsx): guarded by
`pageInfo.hasNextPage && pageInfo.endCursor`; pushes `cursor || ''` onto
the history, advances the cursor to `pageInfo.endCursor` and the start
index by `itemsPerPage`. -/
def handleNextPage (pi : PageInfo) (s : PageState) : PageState :=
  if pi.hasNextPage && truthy pi.endCursor then
    { s with
      cursorHistory := s.cursorHistory ++ [encodeCursor s.cursor],
      cursor := pi.endCursor,
      startIndex := s.startIndex + s.itemsPerPage }
  else s

/-- `handlePreviousPage` (Events.tsx): if the history is non-empty, pop
its last entry (`'' → null`), clamp the start index with
`Math.max(1, startIndex - itemsPerPage)`; otherwise reset to the first
page. -/
def handlePreviousPage (s : PageState) : PageState :=
  match s.cursorHistory.getLast? with
  | some p =>
      { s with
        cursorHistory := s.cursorHistory.dropLast,
        cursor := decodeCursor p,
        startIndex := max 1 (s.startIndex - s.itemsPerPage) }
  | none => { s with cursor := none, startIndex := 1 }

/-- `handleItemsPerPageChange` (Events.tsx). -/
def handleItemsPerPageChange (v : Int) (s : PageState) : PageState :=
  { s with itemsPerPage := v, cursor := none, cursorHistory := [], startIndex := 1 }

/-- The pagination-state part of `handleRefresh` (Events.tsx). -/
def handleRefresh (s : PageState) : PageState :=
  { s with cursor := none, cursorHistory := [], startIndex := 1 }

/-- `n` effective forward navigations, the `k`-th one offered the backend
cursor `cs k` (with `hasNextPage` true, as the Next button requires). -/
def forwardSteps (s : PageState) : List String → PageState
  | [] => s
  | c :: cs => forwardSteps (handleNextPage ⟨true, some c⟩ s) cs

/-- `n` backward navigations. -/
def backSteps (n : Nat) (s : PageState) : PageState :=
  handlePreviousPage^[n] s

theorem decodeCursor_encodeCursor (c : Option String) (h : c ≠ some "") :
    decodeCursor (encodeCursor c) = c := by
  cases c with
  | none => simp [encodeCursor, decodeCursor]
  | some a =>
      have ha : a ≠ "" := fun hh => h (by simp [hh])
      simp [encodeCursor, decodeCursor, ha]

theorem handlePreviousPage_concat (s : PageState) (h : List String) (p : String)
    (hh : s.cursorHistory = h ++ [p]) :
    (handlePreviousPage s).cursor = decodeCursor p ∧
      (handlePreviousPage s).cursorHistory = h := by
  unfold handlePreviousPage
  split
  · next q hq =>
      rw [hh, List.getLast?_concat] at hq
      cases hq
      constructor
      · rfl
      · simp [hh, List.dropLast_concat]
  · next hq =>
      rw [hh, List.getLast?_concat] at hq
      cases hq

theorem forwardBack_aux (cs : List String) :
    ∀ s : PageState, s.cursor ≠ some "" → (∀ c ∈ cs, c ≠ "") →
      (backSteps cs.length (forwardSteps s cs)).cursor = s.cursor ∧
        (backSteps cs.length (forwardSteps s cs)).cursorHistory = s.cursorHistory := by
  induction cs with
  | nil =>
      intro s _ _
      exact ⟨rfl, rfl⟩
  | cons c cs ih =>
      intro s hs hcs
      have hc : c ≠ "" := hcs c (by simp)
      have hguard : truthy (some c) = true := by
        simp [truthy, hc]
      have hstep : handleNextPage ⟨true, some c⟩ s =
          { s with
            cursorHistory := s.cursorHistory ++ [encodeCursor s.cursor],
            cursor := some c,
            startIndex := s.startIndex + s.itemsPerPage } := by
        simp [handleNextPage, hguard]
      have hfwd : forwardSteps s (c :: cs) =
          forwardSteps (handleNextPage ⟨true, some c⟩ s) cs := rfl
      set s1 : PageState := handleNextPage ⟨true, some c⟩ s with hs1
      have hs1c : s1.cursor = some c := by rw [hstep]
      have hs1h : s1.cursorHistory = s.cursorHistory ++ [encodeCursor s.cursor] := by
        rw [hstep]
      have hs1v : s1.cursor ≠ some "" := by
        rw [hs1c]
        intro hcon
        exact hc (by injection hcon)
      have ihres := ih s1 hs1v (fun x hx => hcs x (by simp [hx]))
      have hlen : (c :: cs).length = cs.length + 1 := rfl
      have hback : backSteps (cs.length + 1) (forwardSteps s1 cs) =
          handlePreviousPage (backSteps cs.length (forwardSteps s1 cs)) := by
        unfold backSteps
        exact Function.iterate_succ_apply' handlePreviousPage cs.length _
      set t : PageState := backSteps cs.length (forwardSteps s1 cs) with ht
      have hth : t.cursorHistory = s.cursorHistory ++ [encodeCursor s.cursor] := by
        rw [ht, ihres.2, hs1h]
      have hpop := handlePreviousPage_concat t s.cursorHistory (encodeCursor s.cursor) hth
      rw [hfwd, hlen, hback]
      refine ⟨?_, hpop.2⟩
      rw [hpop.1]
      exact decodeCursor_encodeCursor s.cursor hs

/-- C1: navigating forward `n` effective steps (each with a truthy
backend cursor, as the Next button requires) and then backward `n` steps
restores both the cursor and the cursor history, so the original page is
re-requested (the fetch is keyed on the cursor).  A first-page `null`
cursor is pushed as the history entry `''` and popped back to `null`;
this is the instance with `s.cursor = none`, exercised by the witness. -/
theorem events_pagination_roundtrip (s : PageState) (cs : List String)
    (hs : s.cursor ≠ some "") (hcs : ∀ c ∈ cs, c ≠ "") :
    (backSteps cs.length (forwardSteps s cs)).cursor = s.cursor ∧
      (backSteps cs.length (forwardSteps s cs)).cursorHistory = s.cursorHistory :=
  forwardBack_aux cs s hs hcs

/-- C1 witness: from the first page (`null` cursor, empty history), two
forward steps and two backward steps return to a `null` cursor and empty
history; the intermediate history entry for the first page is `''`. -/
theorem events_pagination_roundtrip_witness :
    (backSteps 2 (forwardSteps ⟨none, [], 1, 50⟩ ["cA", "cB"])).cursor = none ∧
      (backSteps 2 (forwardSteps ⟨none, [], 1, 50⟩ ["cA", "cB"])).cursorHistory = [] :=
  events_pagination_roundtrip ⟨none, [], 1, 50⟩ ["cA", "cB"]
    (by decide) (by decide)

/-- C7: changing the page size resets the pagination to the first page:
the cursor becomes `null`, the cursor history becomes empty, the start
index becomes 1, and the new page size is stored; this holds from every
prior pagination state. -/
theorem itemsPerPageChange_resets (s : PageState) (v : Int) :
    (handleItemsPerPageChange v s).cursor = none ∧
      (handleItemsPerPageChange v s).cursorHistory = [] ∧
      (handleItemsPerPageChange v s).startIndex = 1 ∧
      (handleItemsPerPageChange v s).itemsPerPage = v :=
  ⟨rfl, rfl, rfl, rfl⟩

/-- C10: `handlePreviousPage` is total and safe on an empty history: it
never pops from an empty stack but resets the cursor to `null` and the
start index to 1; and after every backward navigation the start index is
at least 1, because the non-empty branch clamps with
`Math.max(1, startIndex - itemsPerPage)`. -/
theorem previousPage_safe (s : PageState) :
    1 ≤ (handlePreviousPage s).startIndex ∧
      (s.cursorHistory = [] →
        (handlePreviousPage s).cursor = none ∧
          (handlePreviousPage s).startIndex = 1) := by
  constructor
  · unfold handlePreviousPage
    split
    · exact le_max_left 1 _
    · exact le_refl 1
  · intro hnil
    unfold handlePreviousPage
    split
    · next q hq =>
        rw [hnil] at hq
        cases hq
    · exact ⟨rfl, rfl⟩

/-- C10 witness: at a concrete state with empty history and a start index
of 7, a backward navigation yields a `null` cursor and start index 1. -/
theorem previousPage_safe_witness :
    1 ≤ (handlePreviousPage ⟨some "x", [], 7, 25⟩).startIndex ∧
      ((⟨some "x", [], 7, 25⟩ : PageState).cursorHistory = [] →
        (handlePreviousPage ⟨some "x", [], 7, 25⟩).cursor = none ∧
          (handlePreviousPage ⟨some "x", [], 7, 25⟩).startIndex = 1) :=
  previousPage_safe ⟨some "x", [], 7, 25⟩

/-! ## Polling controller (useWebhookEvents, src/hooks)

`intervalRef` holds the id of the interval installed by `setInterval`;
the browser's table of live intervals is made explicit as `activeTimers`
(a list of id/interval pairs).  A `tick` of timer `tid` runs the
scheduled `fetchEvents` exactly when `tid` is still live; fetches are
counted by the ghost field `fetchCount`. -/

structure Timer where
  id : Nat
  interval : Nat
deriving Repr, DecidableEq

structure PollState where
  intervalRef : Option Timer
  activeTimers : List Timer
  isPolling : Bool
  fetchCount : Nat
  nextId : Nat
deriving Repr, DecidableEq

/-- `startPolling` (useWebhookEvents): clear any previously scheduled
interval, set `isPolling`, fetch immediately, then install a fresh
interval at `pollInterval`. -/
def startPolling (pollInterval : Nat) (s : PollState) : PollState :=
  let s1 :=
    match s.intervalRef with
    | some t => { s with activeTimers := s.activeTimers.filter (fun u => u.id != t.id) }
    | none => s
  let s2 := { s1 with isPolling := true }
  let s3 := { s2 with fetchCount := s2.fetchCount + 1 }
  let t : Timer := ⟨s3.nextId, pollInterval⟩
  { s3 with
    activeTimers := s3.activeTimers ++ [t],
    intervalRef := some t,
    nextId := s3.nextId + 1 }

/-- `stopPolling` (useWebhookEvents): clear the interval, null the ref,
set `isPolling` to false. -/
def stopPolling (s : PollState) : PollState :=
  let s1 :=
    match s.intervalRef with
    | some t =>
        { s with
          activeTimers := s.activeTimers.filter (fun u => u.id != t.id),
          intervalRef := none }
    | none => s
  { s1 with isPolling := false }

/-- A browser timer firing: runs the scheduled fetch iff the timer is
still live. -/
def timerTick (tid : Nat) (s : PollState) : PollState :=
  if s.activeTimers.any (fun t => t.id == tid) then
    { s with fetchCount := s.fetchCount + 1 }
  else s

inductive PollOp where
  | start (pollInterval : Nat)
  | stop
  | tick (tid : Nat)
deriving Repr, DecidableEq

def pollStep (s : PollState) : PollOp → PollState
  | .start i => startPolling i s
  | .stop => stopPolling s
  | .tick tid => timerTick tid s

/-- Initial controller state: `intervalRef = useRef(null)`,
`isPolling = false`, no live interval. -/
def pollInit : PollState :=
  { intervalRef := none, activeTimers := [], isPolling := false,
    fetchCount := 0, nextId := 0 }

def pollRun (ops : List PollOp) : PollState :=
  ops.foldl pollStep pollInit

/-- The hook's interval bookkeeping: the live-interval table always holds
exactly the interval referenced by `intervalRef`. -/
def PollInv (s : PollState) : Prop :=
  s.activeTimers = s.intervalRef.toList

theorem pollInv_init : PollInv pollInit := rfl

theorem stopPolling_spec (s : PollState) (h : PollInv s) :
    (stopPolling s).isPolling = false ∧
      (stopPolling s).activeTimers = [] ∧
      (stopPolling s).fetchCount = s.fetchCount ∧
      PollInv (stopPolling s) := by
  obtain ⟨ref, timers, ip, fc, nid⟩ := s
  cases ref with
  | none =>
      have ht : timers = [] := h
      subst ht
      exact ⟨rfl, rfl, rfl, rfl⟩
  | some t =>
      have ht : timers = [t] := h
      subst ht
      refine ⟨rfl, ?_, rfl, ?_⟩ <;>
        simp [stopPolling, PollInv, List.filter]

theorem startPolling_spec (i : Nat) (s : PollState) (h : PollInv s) :
    (startPolling i s).fetchCount = s.fetchCount + 1 ∧
      (startPolling i s).isPolling = true ∧
      (startPolling i s).activeTimers = [⟨s.nextId, i⟩] ∧
      (startPolling i s).intervalRef = some ⟨s.nextId, i⟩ ∧
      PollInv (startPolling i s) := by
  obtain ⟨ref, timers, ip, fc, nid⟩ := s
  cases ref with
  | none =>
      have ht : timers = [] := h
      subst ht
      exact ⟨rfl, rfl, rfl, rfl, rfl⟩
  | some t =>
      have ht : timers = [t] := h
      subst ht
      refine ⟨rfl, rfl, ?_, rfl, ?_⟩ <;>
        simp [startPolling, PollInv, List.filter]

theorem timerTick_inv (tid : Nat) (s : PollState) (h : PollInv s) :
    PollInv (timerTick tid s) := by
  unfold timerTick
  split
  · exact h
  · exact h

theorem pollInv_step (s : PollState) (op : PollOp) (h : PollInv s) :
    PollInv (pollStep s op) := by
  cases op with
  | start i => exact (startPolling_spec i s h).2.2.2.2
  | stop => exact (stopPolling_spec s h).2.2.2
  | tick tid => exact timerTick_inv tid s h

theorem pollInv_run (ops : List PollOp) : PollInv (pollRun ops) := by
  unfold pollRun
  induction ops using List.reverseRecOn with
  | nil => exact pollInv_init
  | append_singleton ops op ih =>
      rw [List.foldl_append]
      exact pollInv_step _ op ih

/-- Ticks on a state with no live interval never fetch (and leave no
interval behind). -/
theorem ticks_no_fetch (tids : List Nat) (s : PollState)
    (h : s.activeTimers = []) :
    (tids.foldl (fun t tid => timerTick tid t) s).fetchCount = s.fetchCount ∧
      (tids.foldl (fun t tid => timerTick tid t) s).activeTimers = [] := by
  induction tids generalizing s with
  | nil => exact ⟨rfl, h⟩
  | cons tid tids ih =>
      have hstep : timerTick tid s = s := by
        simp [timerTick, h]
      rw [List.foldl_cons, hstep]
      exact ih s h

/-- C3: for every reachable state of the polling controller:
after `stopPolling`, `isPolling` is false, no interval is live, and any
number of subsequent timer ticks issues no fetch (until `startPolling`
runs again); `startPolling` first clears any previously scheduled
interval, performs exactly one immediate fetch, and leaves exactly one
live interval, scheduled at the given `pollInterval`. -/
theorem polling_stop_start (ops : List PollOp) (i : Nat) (tids : List Nat) :
    ((stopPolling (pollRun ops)).isPolling = false ∧
      (stopPolling (pollRun ops)).activeTimers = [] ∧
      (tids.foldl (fun t tid => timerTick tid t) (stopPolling (pollRun ops))).fetchCount =
        (stopPolling (pollRun ops)).fetchCount) ∧
    ((startPolling i (pollRun ops)).fetchCount = (pollRun ops).fetchCount + 1 ∧
      (startPolling i (pollRun ops)).isPolling = true ∧
      (startPolling i (pollRun ops)).activeTimers = [⟨(pollRun ops).nextId, i⟩]) := by
  have hinv := pollInv_run ops
  set s := pollRun ops with hsdef
  have hstop := stopPolling_spec s hinv
  have hstart := startPolling_spec i s hinv
  exact ⟨⟨hstop.1, hstop.2.1, (ticks_no_fetch tids _ hstop.2.1).1⟩,
    hstart.1, hstart.2.1, hstart.2.2.1⟩

/-! ## Polling suspension while paginating (Events.tsx + useWebhookEvents)

The relevant slice of the combined component/hook state, and the React
effects pass that runs after each commit, in hook-then-page registration
order: the hook's auto-start effect (`if (autoStart) startPolling()`
with `autoStart: isPollingEnabled && cursor === null`), the hook's
restart effect (`if (isPolling) startPolling()`), the page's
first-page start-index sync, and the page's stop-polling-on-paginate
effect (`if (cursor !== null && isPolling) stopPolling()`). -/

structure EventsPageState where
  cursor : Option String
  pollingEnabled : Bool
  isPolling : Bool
  timerActive : Bool
  startIndex : Int
deriving Repr, DecidableEq

/-- `autoStart: isPollingEnabled && cursor === null` (Events.tsx). -/
def autoStartOpt (s : EventsPageState) : Bool :=
  s.pollingEnabled && s.cursor.isNone

/-- One React effects pass over the combined state. -/
def applyEffects (s : EventsPageState) : EventsPageState :=
  let s1 := if autoStartOpt s then { s with isPolling := true, timerActive := true } else s
  let s2 := if s1.isPolling then { s1 with timerActive := true } else s1
  let s3 := if s2.cursor.isNone then { s2 with startIndex := 1 } else s2
  if s3.cursor.isSome && s3.isPolling then
    { s3 with isPolling := false, timerActive := false }
  else s3

/-- C4: auto-start is disabled whenever a cursor is set (`autoStart` is
false), and after the React effects pass following any state change, a
state with a non-null cursor has polling inactive and its interval
cleared (given the controller's timer/flag coupling, `timerActive =
isPolling`, which `startPolling`/`stopPolling` maintain); so poll data
is never delivered to a non-first page at quiescence. -/
theorem paginate_suspends_polling (s : EventsPageState)
    (hsync : s.timerActive = s.isPolling) :
    (s.cursor ≠ none → autoStartOpt s = false) ∧
      ((applyEffects s).cursor ≠ none →
        (applyEffects s).isPolling = false ∧ (applyEffects s).timerActive = false) := by
  constructor
  · intro hc
    have : s.cursor.isNone = false := by
      cases hcv : s.cursor with
      | none => exact absurd hcv hc
      | some c => rfl
    simp [autoStartOpt, this]
  · intro hc
    unfold applyEffects at hc ⊢
    cases hcv : s.cursor with
    | none =>
        exfalso
        apply hc
        simp only [autoStartOpt, hcv]
        split <;> split <;> simp_all
    | some c =>
        have hauto : autoStartOpt s = false := by
          simp [autoStartOpt, hcv]
        simp only [hauto, if_false, Bool.false_eq_true, hcv]
        by_cases hp : s.isPolling
        · simp [hp, hcv]
        · have hpf : s.isPolling = false := by simpa using hp
          simp [hpf, hcv, hsync]

/-- C4 witness: a first-page polling state (`timerActive = isPolling =
true`) to which the user applies a pagination (cursor now set): after the
effects pass, polling is off and the timer cleared, and auto-start is
disabled for that cursor. -/
theorem paginate_suspends_polling_witness :
    ((⟨some "c1", true, true, true, 51⟩ : EventsPageState).cursor ≠ none →
      autoStartOpt ⟨some "c1", true, true, true, 51⟩ = false) ∧
      ((applyEffects ⟨some "c1", true, true, true, 51⟩).cursor ≠ none →
        (applyEffects ⟨some "c1", true, true, true, 51⟩).isPolling = false ∧
          (applyEffects ⟨some "c1", true, true, true, 51⟩).timerActive = false) :=
  paginate_suspends_polling ⟨some "c1", true, true, true, 51⟩ (by decide)

/-! ## Notification deduplication (useWebhookNotifications, src/hooks)

React semantics embedded: during one run of the events-monitoring
effect, `shouldNotify` is the render-time closure and therefore reads
the `seenEventIds`/`notificationsEnabled` *snapshot* taken at the start
of the batch, while the queued functional `setNotifications` /
`setSeenEventIds` updates accumulate in order.  `processEvents` threads
the accumulator but evaluates `shouldNotify` against the snapshot.
The ghost field `emitted` (not in the source) is an append-only history
variable recording every `addNotification` call, used to talk about
"emitted notifications". -/

structure WebhookEvent where
  event_id : String
  topic : String
  shop_domain : String
  created_at : String
deriving Repr, DecidableEq

structure WebhookNotification where
  id : String
  event : WebhookEvent
  timestamp : Int
deriving Repr, DecidableEq

structure NotifConfig where
  showOrderNotifications : Bool
  showProductNotifications : Bool
  showCustomerNotifications : Bool
  maxHistory : Nat
deriving Repr, DecidableEq

structure NotifState where
  notifications : List WebhookNotification
  seenEventIds : List String
  notificationsEnabled : Bool
  emitted : List String
deriving Repr, DecidableEq

/-- `s.startsWith(p)`, computed on the underlying character lists
(extensionally equal to `String.startsWith`, which does not reduce in
the kernel). -/
def strStartsWith (s p : String) : Bool :=
  p.data.isPrefixOf s.data

/-- `shouldNotify` (useWebhookNotifications). -/
def shouldNotify (cfg : NotifConfig) (s : NotifState) (e : WebhookEvent) : Bool :=
  if !s.notificationsEnabled then false
  else if s.seenEventIds.contains e.event_id then false
  else if cfg.showOrderNotifications && strStartsWith e.topic "orders/" then true
  else if cfg.showProductNotifications && strStartsWith e.topic "products/" then true
  else if cfg.showCustomerNotifications && strStartsWith e.topic "customers/" then true
  else false

/-- The unique notification id
`notification-${event_id}-${Date.now()}-${random}`; the random suffix is
a parameter. -/
def mkNotificationId (e : WebhookEvent) (now : Int) (salt : String) : String :=
  "notification-" ++ e.event_id ++ "-" ++ toString now ++ "-" ++ salt

/-- `addNotification` (useWebhookNotifications): prepend the new
notification and keep only the `maxHistory` most recent; mark the event
id as seen (`Set` membership is modelled by list membership). -/
def addNotification (cfg : NotifConfig) (now : Int) (salt : String)
    (e : WebhookEvent) (s : NotifState) : NotifState :=
  { s with
    notifications :=
      (⟨mkNotificationId e now salt, e, now⟩ :: s.notifications).take cfg.maxHistory,
    seenEventIds := s.seenEventIds ++ [e.event_id],
    emitted := s.emitted ++ [e.event_id] }

/-- The body of `events.forEach(...)` in the monitoring effect, with the
snapshot semantics described above; `salts k` is the random suffix drawn
for the `k`-th processed event. -/
def processEventsAux (cfg : NotifConfig) (now : Int) (salts : Nat → String)
    (snapshot : NotifState) :
    List WebhookEvent → Nat → NotifState → NotifState
  | [], _, acc => acc
  | e :: es, k, acc =>
      processEventsAux cfg now salts snapshot es (k + 1)
        (if shouldNotify cfg snapshot e then
          addNotification cfg now (salts k) e acc
        else acc)

/-- One run of the events-monitoring effect
(`if (!events || !notificationsEnabled) return; events.forEach(...)`). -/
def processEvents (cfg : NotifConfig) (now : Int) (salts : Nat → String)
    (events : List WebhookEvent) (s : NotifState) : NotifState :=
  if s.notificationsEnabled then processEventsAux cfg now salts s events 0 s
  else s

/-- `dismissNotification` (useWebhookNotifications). -/
def dismissNotification (nid : String) (s : NotifState) : NotifState :=
  { s with notifications := s.notifications.filter (fun n => n.id != nid) }

/-- `clearAllNotifications` (useWebhookNotifications). -/
def clearAllNotifications (s : NotifState) : NotifState :=
  { s with notifications := [] }

/-- One run of the periodic cleanup effect: keep the notifications whose
timestamp is strictly greater than `fiveMinutesAgo = now - 5*60*1000`. -/
def cleanupPass (now : Int) (s : NotifState) : NotifState :=
  { s with
    notifications :=
      s.notifications.filter (fun n => decide (now - 5 * 60 * 1000 < n.timestamp)) }

/-- The event ids notified during one batch, as decided against the
snapshot. -/
def batchIds (cfg : NotifConfig) (snapshot : NotifState)
    (events : List WebhookEvent) : List String :=
  (events.filter (shouldNotify cfg snapshot)).map (fun e => e.event_id)

theorem processEventsAux_seen_emitted (cfg : NotifConfig) (now : Int)
    (salts : Nat → String) (snap : NotifState) (events : List WebhookEvent) :
    ∀ (k : Nat) (acc : NotifState),
      (processEventsAux cfg now salts snap events k acc).seenEventIds =
          acc.seenEventIds ++ batchIds cfg snap events ∧
        (processEventsAux cfg now salts snap events k acc).emitted =
          acc.emitted ++ batchIds cfg snap events := by
  induction events with
  | nil => intro k acc; simp [processEventsAux, batchIds]
  | cons e es ih =>
      intro k acc
      by_cases hn : shouldNotify cfg snap e
      · have hb : batchIds cfg snap (e :: es) = e.event_id :: batchIds cfg snap es := by
          simp [batchIds, List.filter_cons, hn]
        have := ih (k + 1) (addNotification cfg now (salts k) e acc)
        simp only [processEventsAux, if_pos hn]
        rw [hb]
        refine ⟨?_, ?_⟩
        · rw [this.1]; simp [addNotification]
        · rw [this.2]; simp [addNotification]
      · have hb : batchIds cfg snap (e :: es) = batchIds cfg snap es := by
          simp [batchIds, List.filter_cons, hn]
        have := ih (k + 1) acc
        simp only [processEventsAux, if_neg hn]
        rw [hb]
        exact this

theorem shouldNotify_not_seen (cfg : NotifConfig) (s : NotifState)
    (e : WebhookEvent) (h : shouldNotify cfg s e = true) :
    e.event_id ∉ s.seenEventIds := by
  intro hmem
  have hc : s.seenEventIds.contains e.event_id = true := by
    exact List.elem_eq_true_of_mem hmem
  unfold shouldNotify at h
  rw [hc] at h
  by_cases he : s.notificationsEnabled <;> simp [he] at h

theorem batchIds_count_zero_of_seen (cfg : NotifConfig) (s : NotifState)
    (events : List WebhookEvent) (eid : String) (h : eid ∈ s.seenEventIds) :
    (batchIds cfg s events).count eid = 0 := by
  rw [List.count_eq_zero]
  intro hmem
  unfold batchIds at hmem
  obtain ⟨e, he, heid⟩ := List.mem_map.1 hmem
  have := List.of_mem_filter he
  exact shouldNotify_not_seen cfg s e this (heid ▸ h)

/-- C2 counterexample: a single poll delivery containing the same order
event twice.  `shouldNotify` consults the seen-set snapshot taken at the
start of the batch, so both occurrences pass the check: two
notifications carrying event id `E1` are emitted (and both sit in the
active queue), refuting "at most one emitted notification per event_id
... including when the same event_id occurs more than once within a
single delivered events array". -/
theorem notify_dedup_counterexample :
    ((processEvents ⟨true, false, false, 10⟩ 0 (fun _ => "r")
        [⟨"E1", "orders/create", "shop.myshopify.com", "2026-01-01T00:00:00Z"⟩,
         ⟨"E1", "orders/create", "shop.myshopify.com", "2026-01-01T00:00:00Z"⟩]
        ⟨[], [], true, []⟩).emitted.count "E1") = 2 ∧
      ((processEvents ⟨true, false, false, 10⟩ 0 (fun _ => "r")
        [⟨"E1", "orders/create", "shop.myshopify.com", "2026-01-01T00:00:00Z"⟩,
         ⟨"E1", "orders/create", "shop.myshopify.com", "2026-01-01T00:00:00Z"⟩]
        ⟨[], [], true, []⟩).notifications.map
          (fun n => n.event.event_id)) = ["E1", "E1"] := by
  constructor <;> decide

/-- C2 (amended): deduplication holds across poll deliveries but not
within one delivered array: (1) an event id already in `seenEventIds`
never produces another emission; (2) `seenEventIds` only grows; (3) if
every previously emitted id is seen, the same holds after the batch — so
an id emitted in one delivery is never emitted by a later delivery;
(4) within one delivery, an event id occurring at most once in the
array (`Nodup`) gains at most one emission.  Duplicates inside a single
array escape the check, as the counterexample shows. -/
theorem notify_dedup_amended (cfg : NotifConfig) (now : Int)
    (salts : Nat → String) (events : List WebhookEvent) (s : NotifState)
    (eid : String) :
    (eid ∈ s.seenEventIds →
      (processEvents cfg now salts events s).emitted.count eid =
        s.emitted.count eid) ∧
    (∀ x ∈ s.seenEventIds, x ∈ (processEvents cfg now salts events s).seenEventIds) ∧
    ((∀ x ∈ s.emitted, x ∈ s.seenEventIds) →
      ∀ x ∈ (processEvents cfg now salts events s).emitted,
        x ∈ (processEvents cfg now salts events s).seenEventIds) ∧
    ((events.map (fun e => e.event_id)).Nodup →
      (processEvents cfg now salts events s).emitted.count eid ≤
        s.emitted.count eid + 1) := by
  by_cases he : s.notificationsEnabled
  · have hrun := processEventsAux_seen_emitted cfg now salts s events 0 s
    have hres : processEvents cfg now salts events s =
        processEventsAux cfg now salts s events 0 s := by
      simp [processEvents, he]
    rw [hres]
    set ids := batchIds cfg s events with hids
    refine ⟨?_, ?_, ?_, ?_⟩
    · intro hseen
      rw [hrun.2, List.count_append,
        batchIds_count_zero_of_seen cfg s events eid hseen]
      omega
    · intro x hx
      rw [hrun.1]
      exact List.mem_append_left _ hx
    · intro hinv x hx
      rw [hrun.2] at hx
      rw [hrun.1]
      rcases List.mem_append.1 hx with hx | hx
      · exact List.mem_append_left _ (hinv x hx)
      · exact List.mem_append_right _ hx
    · intro hnodup
      rw [hrun.2, List.count_append]
      have hsub : ids.Sublist (events.map (fun e => e.event_id)) := by
        rw [hids]
        exact (List.filter_sublist events).map (fun e => e.event_id)
      have h1 : ids.count eid ≤ (events.map (fun e => e.event_id)).count eid :=
        hsub.count_le eid
      have h2 : (events.map (fun e => e.event_id)).count eid ≤ 1 :=
        List.nodup_iff_count_le_one.1 hnodup eid
      omega
  · have hres : processEvents cfg now salts events s = s := by
      simp [processEvents, he]
    rw [hres]
    exact ⟨fun _ => rfl, fun x hx => hx, fun hinv => hinv, fun _ => by omega⟩

/-- C2 witness: an event id seen in an earlier delivery (here `"E0"`)
gains no emission when re-delivered, and ids emitted during a batch are
in the resulting seen set. -/
theorem notify_dedup_amended_witness :
    ((processEvents ⟨true, false, false, 10⟩ 7 (fun _ => "r")
        [⟨"E0", "orders/create", "d", "t"⟩] ⟨[], ["E0"], true, ["E0"]⟩).emitted.count "E0") =
      (⟨[], ["E0"], true, ["E0"]⟩ : NotifState).emitted.count "E0" ∧
    ((⟨[], ["E0"], true, ["E0"]⟩ : NotifState).emitted.count "E0" + 1 ≥
      (processEvents ⟨true, false, false, 10⟩ 7 (fun _ => "r")
        [⟨"E0", "orders/create", "d", "t"⟩] ⟨[], ["E0"], true, ["E0"]⟩).emitted.count "E0") := by
  have h := notify_dedup_amended ⟨true, false, false, 10⟩ 7 (fun _ => "r")
    [⟨"E0", "orders/create", "d", "t"⟩] ⟨[], ["E0"], true, ["E0"]⟩ "E0"
  exact ⟨h.1 (by decide), h.2.2.2 (by decide)⟩

/-- The C5 queue invariant: at most `maxHistory` active notifications,
ordered most-recent-first (non-increasing timestamps). -/
def NotifBounded (cfg : NotifConfig) (s : NotifState) : Prop :=
  s.notifications.length ≤ cfg.maxHistory ∧
    s.notifications.Pairwise (fun a b => b.timestamp ≤ a.timestamp)

/-- C5: every operation on the active-notification queue preserves the
bounded most-recent-first invariant: `addNotification` (for a
notification stamped no earlier than the existing ones, as `new Date()`
guarantees) places the new entry at the front and drops the overflow
from the back; `dismissNotification`, `clearAllNotifications` and the
periodic cleanup pass only remove entries in place. -/
theorem notification_queue_bounded (cfg : NotifConfig) (s : NotifState)
    (nid salt : String) (now : Int) (e : WebhookEvent)
    (hb : NotifBounded cfg s)
    (hts : ∀ n ∈ s.notifications, n.timestamp ≤ now) :
    (NotifBounded cfg (addNotification cfg now salt e s) ∧
      (addNotification cfg now salt e s).notifications =
        (⟨mkNotificationId e now salt, e, now⟩ :: s.notifications).take cfg.maxHistory) ∧
    NotifBounded cfg (dismissNotification nid s) ∧
    NotifBounded cfg (clearAllNotifications s) ∧
    NotifBounded cfg (cleanupPass now s) := by
  have hsubOf : ∀ p : WebhookNotification → Bool,
      NotifBounded cfg { s with notifications := s.notifications.filter p } := by
    intro p
    have hsub : (s.notifications.filter p).Sublist s.notifications :=
      List.filter_sublist _
    exact ⟨le_trans hsub.length_le hb.1, hb.2.sublist hsub⟩
  refine ⟨⟨⟨?_, ?_⟩, rfl⟩, hsubOf _, ⟨Nat.zero_le _, List.Pairwise.nil⟩, hsubOf _⟩
  · simp [addNotification]
  · have hcons :
        (⟨mkNotificationId e now salt, e, now⟩ ::
            s.notifications).Pairwise (fun a b => b.timestamp ≤ a.timestamp) :=
      List.pairwise_cons.2 ⟨fun b hbmem => hts b hbmem, hb.2⟩
    exact hcons.sublist (List.take_sublist _ _)

/-- C5 witness: a concrete two-element queue with capacity 2 and
timestamps 5 then 3; adding a notification stamped 9, dismissing,
clearing and cleaning all preserve the invariant, and the add prepends
then truncates to capacity. -/
theorem notification_queue_bounded_witness :
    (NotifBounded ⟨true, false, false, 2⟩
        (addNotification ⟨true, false, false, 2⟩ 9 "r" ⟨"E9", "orders/create", "d", "t"⟩
          ⟨[⟨"a", ⟨"E7", "orders/create", "d", "t"⟩, 5⟩,
            ⟨"b", ⟨"E8", "orders/create", "d", "t"⟩, 3⟩], [], true, []⟩) ∧
      (addNotification ⟨true, false, false, 2⟩ 9 "r" ⟨"E9", "orders/create", "d", "t"⟩
          ⟨[⟨"a", ⟨"E7", "orders/create", "d", "t"⟩, 5⟩,
            ⟨"b", ⟨"E8", "orders/create", "d", "t"⟩, 3⟩], [], true, []⟩).notifications =
        (⟨mkNotificationId ⟨"E9", "orders/create", "d", "t"⟩ 9 "r",
            ⟨"E9", "orders/create", "d", "t"⟩, 9⟩ ::
          [⟨"a", ⟨"E7", "orders/create", "d", "t"⟩, 5⟩,
            ⟨"b", ⟨"E8", "orders/create", "d", "t"⟩, 3⟩]).take 2) ∧
    NotifBounded ⟨true, false, false, 2⟩
      (dismissNotification "a"
        ⟨[⟨"a", ⟨"E7", "orders/create", "d", "t"⟩, 5⟩,
          ⟨"b", ⟨"E8", "orders/create", "d", "t"⟩, 3⟩], [], true, []⟩) ∧
    NotifBounded ⟨true, false, false, 2⟩
      (clearAllNotifications
        ⟨[⟨"a", ⟨"E7", "orders/create", "d", "t"⟩, 5⟩,
          ⟨"b", ⟨"E8", "orders/create", "d", "t"⟩, 3⟩], [], true, []⟩) ∧
    NotifBounded ⟨true, false, false, 2⟩
      (cleanupPass 9
        ⟨[⟨"a", ⟨"E7", "orders/create", "d", "t"⟩, 5⟩,
          ⟨"b", ⟨"E8", "orders/create", "d", "t"⟩, 3⟩], [], true, []⟩) :=
  notification_queue_bounded ⟨true, false, false, 2⟩
    ⟨[⟨"a", ⟨"E7", "orders/create", "d", "t"⟩, 5⟩,
      ⟨"b", ⟨"E8", "orders/create", "d", "t"⟩, 3⟩], [], true, []⟩
    "a" "r" 9 ⟨"E9", "orders/create", "d", "t"⟩
    ⟨by decide, by decide⟩ (by decide)

/-- C6 counterexample: a notification whose timestamp sits exactly at
the expiry threshold (`now - 5*60*1000`).  It is not older than the
threshold, yet one cleanup run removes it, because the code keeps only
notifications with `timestamp > fiveMinutesAgo` (strict).  This refutes
"removes exactly the notifications whose timestamp is older than the
threshold". -/
theorem cleanup_boundary_counterexample :
    (cleanupPass 300000
        ⟨[⟨"n0", ⟨"E2", "orders/create", "d", "t"⟩, 0⟩], [], true, []⟩).notifications = [] ∧
      ¬ ((⟨"n0", ⟨"E2", "orders/create", "d", "t"⟩, 0⟩ :
          WebhookNotification).timestamp < 300000 - 5 * 60 * 1000) := by
  constructor <;> decide

/-- C6 (amended): one cleanup run keeps exactly the notifications whose
timestamp is strictly greater than the threshold `now - 5*60*1000`
(so a notification stamped exactly at the threshold is removed), and
leaves the relative order of the kept notifications unchanged (the
result is a sublist of the input). -/
theorem cleanup_exact (now : Int) (s : NotifState) (n : WebhookNotification) :
    (cleanupPass now s).notifications.Sublist s.notifications ∧
      (n ∈ (cleanupPass now s).notifications ↔
        n ∈ s.notifications ∧ now - 5 * 60 * 1000 < n.timestamp) := by
  constructor
  · exact List.filter_sublist _
  · simp [cleanupPass, List.mem_filter]

/-- C6 witness: a notification one millisecond newer than the threshold
is kept by the cleanup pass. -/
theorem cleanup_exact_witness :
    (⟨"n1", ⟨"E3", "orders/create", "d", "t"⟩, 1⟩ : WebhookNotification) ∈
      (cleanupPass 300000
        ⟨[⟨"n1", ⟨"E3", "orders/create", "d", "t"⟩, 1⟩], [], true, []⟩).notifications :=
  (cleanup_exact 300000
      ⟨[⟨"n1", ⟨"E3", "orders/create", "d", "t"⟩, 1⟩], [], true, []⟩
      ⟨"n1", ⟨"E3", "orders/create", "d", "t"⟩, 1⟩).2.mpr
    ⟨by decide, by decide⟩

/-! ## Event client and events-hook error handling
(src/lib/event-client.ts, useWebhookEvents)

The HTTP layer is modelled by the response fields the client inspects
(`ok`, `status`, `statusText`) plus the parsed body; `fetch` failures
and thrown errors surface as the `Except.error` case of the combined
`Promise.all` result consumed by `fetchEvents`.  Of the stats payload,
the hook reads only `data.total`; the remaining stats fields do not
affect any verified claim and are elided. -/

structure WebhookEventStats where
  total : Nat
deriving Repr, DecidableEq

structure EventsPagination where
  limit : Nat
  hasMore : Bool
deriving Repr, DecidableEq

structure WebhookEventsResponse where
  success : Bool
  message : String
  data : List WebhookEvent
  pagination : Option EventsPagination
deriving Repr, DecidableEq

structure WebhookEventStatsResponse where
  success : Bool
  message : String
  data : WebhookEventStats
deriving Repr, DecidableEq

structure HttpResponse where
  ok : Bool
  status : Nat
  statusText : String
deriving Repr, DecidableEq

/-- `EventClient.getWebhookEvents` (event-client.ts): throw exactly when
the response is not ok and its status is not 304 (`304` is a successful
cached response); otherwise return the parsed body. -/
def getWebhookEvents (r : HttpResponse) (body : WebhookEventsResponse) :
    Except String WebhookEventsResponse :=
  if !r.ok && r.status != 304 then
    .error ("Failed to fetch webhook events: " ++ r.statusText)
  else .ok body

/-- `s || fallback` on strings (the empty string is falsy). -/
def jsOrString (s fallback : String) : String :=
  if s = "" then fallback else s

structure EventsHookState where
  events : List WebhookEvent
  stats : Option WebhookEventStats
  loading : Bool
  error : Option String
  totalCount : Nat
  pageInfoHasNext : Bool
  pageInfoEndCursor : Option String
  lastFetched : Option Int
deriving Repr, DecidableEq

/-- The state update performed by one run of `fetchEvents`
(useWebhookEvents), a total function of the combined
events/stats fetch outcome — the `try`/`catch`/`finally` guarantees no
exception escapes the hook.  `setError(null)` runs at the top of the
`try`; the `catch` stores the thrown error's display string; a
`success: false` events envelope stores `message || 'Failed to fetch
webhook events'`; the end cursor is the last event's id
(`lastEvent?.event_id || null`) and `hasNextPage` is
`pagination?.hasMore || false`. -/
def fetchEventsUpdate (now : Int) (st : EventsHookState)
    (res : Except String (WebhookEventsResponse × WebhookEventStatsResponse)) :
    EventsHookState :=
  match res with
  | .error msg => { st with error := some msg, loading := false }
  | .ok (ev, sts) =>
      let st1 :=
        if ev.success then
          { st with
            error := none,
            events := ev.data,
            pageInfoHasNext := (ev.pagination.map EventsPagination.hasMore).getD false,
            pageInfoEndCursor :=
              match ev.data.getLast? with
              | none => none
              | some e => if e.event_id = "" then none else some e.event_id }
        else
          { st with
            error := some (jsOrString ev.message "Failed to fetch webhook events") }
      let st2 :=
        if sts.success then
          { st1 with stats := some sts.data, totalCount := sts.data.total }
        else st1
      { st2 with lastFetched := some now, loading := false }

/-- C8: failures are absorbed at the hook boundary — `fetchEventsUpdate`
is a total function of the fetch outcome, a thrown error is stored as
the display string in `error` with loading cleared, and a
`success: false` envelope is converted to the envelope's message (with
the default string when the message is empty); at the client layer,
`getWebhookEvents` returns an error exactly when the response is not ok
and its status is not 304. -/
theorem event_fetch_error_handling (r : HttpResponse)
    (body ev : WebhookEventsResponse) (sts : WebhookEventStatsResponse)
    (st : EventsHookState) (now : Int) (msg : String) :
    ((∃ m, getWebhookEvents r body = .error m) ↔ (r.ok = false ∧ r.status ≠ 304)) ∧
    ((fetchEventsUpdate now st (.error msg)).error = some msg ∧
      (fetchEventsUpdate now st (.error msg)).loading = false) ∧
    (ev.success = false →
      (fetchEventsUpdate now st (.ok (ev, sts))).error =
        some (jsOrString ev.message "Failed to fetch webhook events") ∧
      (fetchEventsUpdate now st (.ok (ev, sts))).loading = false) := by
  refine ⟨?_, ⟨rfl, rfl⟩, ?_⟩
  · unfold getWebhookEvents
    by_cases h : (!r.ok && r.status != 304) = true
    · rw [if_pos h]
      simp only [Bool.and_eq_true, Bool.not_eq_true', bne_iff_ne] at h
      simp [h]
    · rw [if_neg h]
      simp only [Bool.and_eq_true, Bool.not_eq_true', bne_iff_ne, not_and] at h
      constructor
      · rintro ⟨m, hm⟩
        cases hm
      · rintro ⟨h1, h2⟩
        exact absurd (h h1) (not_not_intro h2)
  · intro hsucc
    by_cases hsts : sts.success <;>
      simp [fetchEventsUpdate, hsucc, hsts]

/-- C8 witness: a concrete 500 response makes the client throw; a thrown
message lands in `error`; a `success: false` envelope with an empty
message yields the default display string. -/
theorem event_fetch_error_handling_witness :
    ((∃ m, getWebhookEvents ⟨false, 500, "Internal Server Error"⟩
        ⟨true, "", [], none⟩ = .error m) ↔
      ((false : Bool) = false ∧ (500 : Nat) ≠ 304)) ∧
    ((fetchEventsUpdate 0
        ⟨[], none, true, none, 0, false, none, none⟩ (.error "boom")).error = some "boom" ∧
      (fetchEventsUpdate 0
        ⟨[], none, true, none, 0, false, none, none⟩ (.error "boom")).loading = false) ∧
    ((⟨false, "", [], none⟩ : WebhookEventsResponse).success = false →
      (fetchEventsUpdate 0 ⟨[], none, true, none, 0, false, none, none⟩
          (.ok (⟨false, "", [], none⟩, ⟨true, "", ⟨3⟩⟩))).error =
        some (jsOrString (⟨false, "", [], none⟩ : WebhookEventsResponse).message
          "Failed to fetch webhook events") ∧
      (fetchEventsUpdate 0 ⟨[], none, true, none, 0, false, none, none⟩
          (.ok (⟨false, "", [], none⟩, ⟨true, "", ⟨3⟩⟩))).loading = false) :=
  event_fetch_error_handling ⟨false, 500, "Internal Server Error"⟩
    ⟨true, "", [], none⟩ ⟨false, "", [], none⟩ ⟨true, "", ⟨3⟩⟩
    ⟨[], none, true, none, 0, false, none, none⟩ 0 "boom"

/-! ## Resource hooks: state kept on a failed fetch
(useOrders.ts, useProducts.ts, and the paginated useCustomers)

Each hook's `fetch…` body is embedded as a total state-update function
of the fetch outcome; the outcome's error string is already the display
string (`err instanceof Error ? err.message : 'Failed to fetch …'`).
All three paginated hooks only set `error` and clear `loading` in their
`catch`. -/

structure GPageInfo where
  hasNextPage : Bool
  endCursor : Option String
deriving Repr, DecidableEq

structure Order where
  id : String
  shopifyId : String
  orderNumber : String
  customerName : String
  totalPrice : String
  status : String
  createdAt : String
  updatedAt : String
deriving Repr, DecidableEq

structure OrdersHookState where
  orders : List Order
  loading : Bool
  error : Option String
  lastFetched : Option Int
  totalCount : Nat
  pageInfo : GPageInfo
deriving Repr, DecidableEq

structure OrdersPageResult where
  items : List Order
  totalCount : Nat
  pageInfo : Option GPageInfo
deriving Repr, DecidableEq

/-- The state update of one `fetchOrders` run (useOrders.ts): on
success, store the transformed items, total count, page info
(`response.orders.pageInfo || { hasNextPage: false, endCursor: null }`)
and fetch time; on failure, only the error string is set and loading is
cleared. -/
def fetchOrdersUpdate (now : Int) (st : OrdersHookState)
    (res : Except String OrdersPageResult) : OrdersHookState :=
  match res with
  | .error msg => { st with error := some msg, loading := false }
  | .ok page =>
      { st with
        error := none,
        orders := page.items,
        totalCount := page.totalCount,
        pageInfo := page.pageInfo.getD ⟨false, none⟩,
        lastFetched := some now,
        loading := false }

structure Product where
  id : String
  shopifyId : String
  title : String
  handle : String
  vendor : Option String
  productType : Option String
  price : Int
  inventoryQuantity : Option Int
  status : String
  syncStatus : Option String
  createdAt : String
  updatedAt : String
deriving Repr, DecidableEq

structure ProductsHookState where
  products : List Product
  loading : Bool
  error : Option String
  lastFetched : Option Int
  totalCount : Nat
  pageInfo : GPageInfo
deriving Repr, DecidableEq

structure ProductsPageResult where
  items : List Product
  totalCount : Nat
  pageInfo : GPageInfo
deriving Repr, DecidableEq

/-- The state update of one `fetchProducts` run (useProducts.ts). -/
def fetchProductsUpdate (now : Int) (st : ProductsHookState)
    (res : Except String ProductsPageResult) : ProductsHookState :=
  match res with
  | .error msg => { st with error := some msg, loading := false }
  | .ok page =>
      { st with
        error := none,
        products := page.items,
        totalCount := page.totalCount,
        pageInfo := page.pageInfo,
        lastFetched := some now,
        loading := false }

structure Customer where
  id : String
  shopifyId : String
  firstName : String
  lastName : String
  email : String
  phone : String
  totalSpent : String
  ordersCount : Nat
  status : String
  createdAt : String
  updatedAt : String
deriving Repr, DecidableEq

structure CustomersHookState where
  customers : List Customer
  loading : Bool
  error : Option String
  lastFetched : Option Int
  totalCount : Nat
  pageInfo : GPageInfo
deriving Repr, DecidableEq

structure CustomersPageResult where
  items : List Customer
  totalCount : Nat
  pageInfo : Option GPageInfo
deriving Repr, DecidableEq

/-- The state update of one `fetchCustomers` run (the paginated
`useCustomers`): on success, store the transformed items, total count,
page info (`response.customers.pageInfo || { hasNextPage: false,
endCursor: null }`) and fetch time; on failure, only the error string
is set and loading is cleared. -/
def fetchCustomersUpdate (now : Int) (st : CustomersHookState)
    (res : Except String CustomersPageResult) : CustomersHookState :=
  match res with
  | .error msg => { st with error := some msg, loading := false }
  | .ok page =>
      { st with
        error := none,
        customers := page.items,
        totalCount := page.totalCount,
        pageInfo := page.pageInfo.getD ⟨false, none⟩,
        lastFetched := some now,
        loading := false }

/-- C9: on a failed fetch, `useOrders`, `useProducts` and `useCustomers`
keep all previously held data — the item list, totalCount, pageInfo and
lastFetched retain their prior values — and only the error string is
set and loading is cleared, so a failed refresh never clears or
corrupts the displayed page. -/
theorem hooks_keep_data_on_error (now : Int) (msg : String)
    (ost : OrdersHookState) (pst : ProductsHookState) (cst : CustomersHookState) :
    ((fetchOrdersUpdate now ost (.error msg)).orders = ost.orders ∧
      (fetchOrdersUpdate now ost (.error msg)).totalCount = ost.totalCount ∧
      (fetchOrdersUpdate now ost (.error msg)).pageInfo = ost.pageInfo ∧
      (fetchOrdersUpdate now ost (.error msg)).lastFetched = ost.lastFetched ∧
      (fetchOrdersUpdate now ost (.error msg)).error = some msg ∧
      (fetchOrdersUpdate now ost (.error msg)).loading = false) ∧
    ((fetchProductsUpdate now pst (.error msg)).products = pst.products ∧
      (fetchProductsUpdate now pst (.error msg)).totalCount = pst.totalCount ∧
      (fetchProductsUpdate now pst (.error msg)).pageInfo = pst.pageInfo ∧
      (fetchProductsUpdate now pst (.error msg)).lastFetched = pst.lastFetched ∧
      (fetchProductsUpdate now pst (.error msg)).error = some msg ∧
      (fetchProductsUpdate now pst (.error msg)).loading = false) ∧
    ((fetchCustomersUpdate now cst (.error msg)).customers = cst.customers ∧
      (fetchCustomersUpdate now cst (.error msg)).totalCount = cst.totalCount ∧
      (fetchCustomersUpdate now cst (.error msg)).pageInfo = cst.pageInfo ∧
      (fetchCustomersUpdate now cst (.error msg)).lastFetched = cst.lastFetched ∧
      (fetchCustomersUpdate now cst (.error msg)).error = some msg ∧
      (fetchCustomersUpdate now cst (.error msg)).loading = false) :=
  ⟨⟨rfl, rfl, rfl, rfl, rfl, rfl⟩, ⟨rfl, rfl, rfl, rfl, rfl, rfl⟩,
    rfl, rfl, rfl, rfl, rfl, rfl⟩

end ShopifyOps
